import Mathlib

/-!
Verification of the ST socket wrapper
(`demos/projects/ST/b-l475e-iot01a/port/sockets_wrapper_stm32l475.c`).

The wrapper multiplexes a fixed table of 4 logical sockets onto one
half-duplex WiFi channel.  We embed the file shallowly: the socket table
is a list of slot records, the channel driver, the semaphore and the tick
source are environment oracles supplied as explicit parameters, and each
C function becomes a Lean function from the table and its environment to
a result and an updated table.
-/

namespace STSockets

/-- Flag: socket uses TLS (`stsecuresocketsSOCKET_SECURE_FLAG = 1 << 0`). -/
def stsecuresocketsSOCKET_SECURE_FLAG : Nat := 1

/-- Flag: socket closed for receive (`1 << 1`). -/
def stsecuresocketsSOCKET_READ_CLOSED_FLAG : Nat := 2

/-- Flag: socket closed for send (`1 << 2`). -/
def stsecuresocketsSOCKET_WRITE_CLOSED_FLAG : Nat := 4

/-- Flag: socket is connected (`1 << 3`). -/
def stsecuresocketsSOCKET_IS_CONNECTED_FLAG : Nat := 8

/-- Maximum number of sockets (`wificonfigMAX_SOCKETS = 4`). -/
def wificonfigMAX_SOCKETS : Nat := 4

/-- Default send timeout in ms (`socketsconfigDEFAULT_SEND_TIMEOUT`). -/
def socketsconfigDEFAULT_SEND_TIMEOUT : Nat := 10000

/-- Default receive timeout in ms (`socketsconfigDEFAULT_RECV_TIMEOUT`). -/
def socketsconfigDEFAULT_RECV_TIMEOUT : Nat := 10000

/-- Hardware poll bound handed to the module during receive (`1` ms). -/
def stsecuresocketsONE_MILLISECOND : Nat := 1

/-- Sleep between receive polls (`pdMS_TO_TICKS(5)`, ticks at 1 kHz). -/
def stsecuresocketsFIVE_MILLISECONDS : Nat := 5

/-- Modelled from the spec: the channel driver's maximum single-transfer
size `ES_WIFI_PAYLOAD_SIZE`.  The driver header `es_wifi.h` is external
to the repository; the spec fixes only that this is a constant bound
(the ST driver uses 1200 bytes).  No claim depends on the numeral. -/
def ES_WIFI_PAYLOAD_SIZE : Nat := 1200

/-- Modelled from the spec: the sentinel "invalid handle" value
`SOCKETS_INVALID_SOCKET` from `sockets_wrapper.h` (the header is not
under `src/`).  The spec fixes only that it is a sentinel distinct from
every valid slot index; we use the all-ones 32-bit value that the cast
`( uint32_t ) SOCKETS_INVALID_SOCKET` produces. -/
def SOCKETS_INVALID_SOCKET : Nat := 4294967295

/-- Modelled from the spec: the status codes of `sockets_wrapper.h` (the
header is not under `src/`; spec section 7 gives the taxonomy as kinds,
not literal codes), as an enumeration of distinct values. -/
inductive SocketsStatus where
  | ERROR_NONE
  | SOCKET_ERROR
  | ENOMEM
  | EINVAL
  | ENOPROTOOPT
  | PERIPHERAL_RESET
  deriving DecidableEq, Repr

/-- The channel-driver status enumeration consumed by the wrapper
(spec section 6: statuses in OK, TIMEOUT, ERROR). -/
inductive WIFI_Status where
  | OK
  | TIMEOUT
  | ERROR
  deriving DecidableEq, Repr

/-- One socket slot (`STSecureSocket_t`).  Machine integers are `Nat`
with explicit reductions where overflow matters. -/
structure STSecureSocket where
  ucInUse : Nat
  esWifiSocketNumber : Nat
  ulFlags : Nat
  ulSendTimeout : Nat
  ulReceiveTimeout : Nat
  deriving DecidableEq, Repr

instance : Inhabited STSecureSocket := ⟨⟨0, 0, 0, 0, 0⟩⟩

/-- The socket table `xSockets`. -/
abbrev SocketTable := List STSecureSocket

/-- Read of `xSockets[i]` as a total function (out-of-range reads, undefined in C,
return the zero slot). -/
def sockAt (t : SocketTable) (i : Nat) : STSecureSocket :=
  (t[i]?).getD ⟨0, 0, 0, 0, 0⟩

/-- Write of `xSockets[i]` (out-of-range writes leave the table unchanged). -/
def setSock (t : SocketTable) (i : Nat) (s : STSecureSocket) : SocketTable :=
  t.set i s

/-- The static initial table: C zero-initializes the static array, so
every field of every slot starts at 0. -/
def initialTable : SocketTable :=
  List.replicate wificonfigMAX_SOCKETS ⟨0, 0, 0, 0, 0⟩

/-- Scan of `prvGetFreeSocket`: index of the first slot whose `ucInUse`
is 0, starting the count at `i`. -/
def findFreeIndex : SocketTable → Nat → Option Nat
  | [], _ => none
  | s :: rest, i => if s.ucInUse = 0 then some i else findFreeIndex rest (i + 1)

/-- Model of `prvGetFreeSocket`: mark the first free slot in-use and return its
index, or return `SOCKETS_INVALID_SOCKET` leaving the table unchanged. -/
def prvGetFreeSocket (t : SocketTable) : Nat × SocketTable :=
  match findFreeIndex t 0 with
  | some i => (i, setSock t i { sockAt t i with ucInUse := 1 })
  | none => (SOCKETS_INVALID_SOCKET, t)

/-- Model of `prvReturnSocket`: mark the slot free. -/
def prvReturnSocket (t : SocketTable) (i : Nat) : SocketTable :=
  setSock t i { sockAt t i with ucInUse := 0 }

/-- Model of `prvIsValidSocket`: in range and currently in use. -/
def prvIsValidSocket (t : SocketTable) (i : Nat) : Bool :=
  decide (i < wificonfigMAX_SOCKETS) && (sockAt t i).ucInUse == 1

/-- Model of `Sockets_Init`: mark every slot free with `ulFlags` rebuilt as
READ_CLOSED ||| WRITE_CLOSED.  The other fields are not written.
The C function returns `SOCKETS_ERROR_NONE`. -/
def Sockets_Init (t : SocketTable) : SocketTable :=
  t.map fun s =>
    { s with
      ucInUse := 0
      ulFlags := stsecuresocketsSOCKET_READ_CLOSED_FLAG |||
                 stsecuresocketsSOCKET_WRITE_CLOSED_FLAG }

/-- Model of `Sockets_Open`: grab a free slot; when the grab produced a valid
slot, overwrite its flags with SECURE only and load the default
timeouts.  Returns the slot index (or the invalid sentinel) as the
handle. -/
def Sockets_Open (t : SocketTable) : Nat × SocketTable :=
  let p := prvGetFreeSocket t
  if prvIsValidSocket p.2 p.1 then
    (p.1, setSock p.2 p.1
      { sockAt p.2 p.1 with
        ulFlags := stsecuresocketsSOCKET_SECURE_FLAG
        ulSendTimeout := socketsconfigDEFAULT_SEND_TIMEOUT
        ulReceiveTimeout := socketsconfigDEFAULT_RECV_TIMEOUT })
  else p

/-- Model of `Sockets_Close`: release the slot when the handle is valid; always
return `SOCKETS_ERROR_NONE`.  No channel command is issued. -/
def Sockets_Close (t : SocketTable) (xSocket : Nat) : SocketsStatus × SocketTable :=
  if prvIsValidSocket t xSocket then
    (SocketsStatus.ERROR_NONE, prvReturnSocket t xSocket)
  else
    (SocketsStatus.ERROR_NONE, t)

/-- Environment oracle for `Sockets_Connect` and `prvGetHostByName`:
results of the two semaphore acquisitions, of the DNS lookup and of the
driver connect command. -/
structure ConnectEnv where
  dnsSemTake : Bool
  dnsLookupOk : Bool
  dnsAddr : Nat
  semTake : Bool
  connectOk : Bool

/-- Model of `prvGetHostByName`: the address stays 0 unless the semaphore is
obtained and `WIFI_GetHostAddress` succeeds; the semaphore is released
before returning.  Second component: whether the semaphore is still held
on exit (it never is). -/
def prvGetHostByName (e : ConnectEnv) : Nat × Bool :=
  if e.dnsSemTake then
    ((if e.dnsLookupOk then e.dnsAddr % 4294967296 else 0), false)
  else
    (0, false)

/-- Result of `Sockets_Connect`: status, table after the call, and
whether the channel semaphore is still held on exit. -/
structure ConnectOut where
  status : SocketsStatus
  table : SocketTable
  semHeldAfter : Bool
  deriving DecidableEq, Repr

/-- Model of `Sockets_Connect`: validate, resolve, lock, issue the connect
command; a successful command ORs the CONNECTED flag into the slot. -/
def Sockets_Connect (t : SocketTable) (e : ConnectEnv) (xSocket usPort : Nat) :
    ConnectOut :=
  if prvIsValidSocket t xSocket = false then
    ⟨SocketsStatus.ENOMEM, t, false⟩
  else
    let dns := prvGetHostByName e
    if dns.1 = 0 then
      ⟨SocketsStatus.SOCKET_ERROR, t, dns.2⟩
    else if e.semTake = false then
      ⟨SocketsStatus.SOCKET_ERROR, t, dns.2⟩
    else if e.connectOk then
      ⟨SocketsStatus.ERROR_NONE,
        setSock t xSocket
          { sockAt t xSocket with
            ulFlags := (sockAt t xSocket).ulFlags |||
                       stsecuresocketsSOCKET_IS_CONNECTED_FLAG },
        false⟩
    else
      ⟨SocketsStatus.SOCKET_ERROR, t, false⟩

/-- Model of `Sockets_Disconnect`: on a valid handle, OR the two closed flags
into the slot, issue a best-effort channel close when the semaphore is
obtained (no table effect), then free the slot.  `semTake` is the
environment's answer to the 60 s semaphore acquisition. -/
def Sockets_Disconnect (t : SocketTable) (semTake : Bool) (xSocket : Nat) :
    SocketTable :=
  if prvIsValidSocket t xSocket then
    prvReturnSocket
      (setSock t xSocket
        { sockAt t xSocket with
          ulFlags := (sockAt t xSocket).ulFlags |||
                     stsecuresocketsSOCKET_READ_CLOSED_FLAG |||
                     stsecuresocketsSOCKET_WRITE_CLOSED_FLAG })
      xSocket
  else t

/-- Option names of `Sockets_SetSockOpt`.  Modelled from the spec: the
literal `SOCKETS_SO_RCVTIMEO` and `SOCKETS_SO_SNDTIMEO` codes live in
`sockets_wrapper.h`, which is not under `src/`; all remaining codes fall
into the switch default. -/
inductive SockOptName where
  | SO_RCVTIMEO
  | SO_SNDTIMEO
  | OTHER (code : Nat)
  deriving DecidableEq, Repr

/-- Model of `Sockets_SetSockOpt`: invalid handle gives EINVAL; the two timeout
options store the 32-bit option value on the slot and give ERROR_NONE;
anything else gives ENOPROTOOPT with no mutation. -/
def Sockets_SetSockOpt (t : SocketTable) (xSocket : Nat)
    (lOptionName : SockOptName) (value : Nat) : SocketsStatus × SocketTable :=
  if prvIsValidSocket t xSocket = false then
    (SocketsStatus.EINVAL, t)
  else
    match lOptionName with
    | SockOptName.SO_RCVTIMEO =>
        (SocketsStatus.ERROR_NONE,
         setSock t xSocket
           { sockAt t xSocket with ulReceiveTimeout := value % 4294967296 })
    | SockOptName.SO_SNDTIMEO =>
        (SocketsStatus.ERROR_NONE,
         setSock t xSocket
           { sockAt t xSocket with ulSendTimeout := value % 4294967296 })
    | SockOptName.OTHER _ =>
        (SocketsStatus.ENOPROTOOPT, t)

/-- Unsigned 32-bit subtraction `a - b`, as the tick-count difference
`xTaskGetTickCount() - xTimeOnEntering` computes it. -/
def usub32 (a b : Nat) : Nat :=
  (a % 4294967296 + (4294967296 - b % 4294967296)) % 4294967296

/-- Clamp of the receive length to the module's single-transfer bound. -/
def clampRecvLen (l : Nat) : Nat :=
  if l > ES_WIFI_PAYLOAD_SIZE then ES_WIFI_PAYLOAD_SIZE else l

/-- One iteration of the receive loop as the environment answers it:
the semaphore acquisition, the driver status, the bytes the driver
delivers as a function of the requested length, and the tick count read
at the elapsed-time check. -/
structure RecvStep where
  semTake : Bool
  wifiStatus : WIFI_Status
  recvBytes : Nat → Nat
  tickNow : Nat

/-- Environment of `Sockets_Recv`: the per-iteration oracle, the result
of `WIFI_ResetModule`, and the tick count on entry. -/
structure RecvEnv where
  step : Nat → RecvStep
  resetOk : Bool
  tick0 : Nat

/-- The polling loop of `Sockets_Recv`.  `wPrev` is the value the local
`xWiFiResult` holds from the previous iteration (initially OK); the
loop is given fuel, `none` meaning it has not exited within it.  The
result pairs the loop's `xRetVal` with the final `xWiFiResult`. -/
def recvLoop (step : Nat → RecvStep) (rTimeout t0 reqLen : Nat) :
    Nat → Nat → WIFI_Status → Option ((Nat ⊕ SocketsStatus) × WIFI_Status)
  | _, 0, _ => none
  | i, fuel + 1, wPrev =>
    let st := step i
    if st.semTake then
      let w := st.wifiStatus
      let b := st.recvBytes reqLen % 65536
      if w = WIFI_Status.OK ∧ b ≠ 0 then
        some (Sum.inl b, w)
      else if w = WIFI_Status.TIMEOUT ∨ (w = WIFI_Status.OK ∧ b = 0) then
        if usub32 st.tickNow t0 < rTimeout then
          recvLoop step rTimeout t0 reqLen (i + 1) fuel w
        else
          some (Sum.inl 0, w)
      else
        some (Sum.inr SocketsStatus.SOCKET_ERROR, w)
    else
      some (Sum.inl 0, wPrev)

/-- Shared recovery epilogue of `Sockets_Recv` and `Sockets_Send`: when
the driver reported `WIFI_STATUS_ERROR` and the module reset succeeds,
the table is reinitialized and the status becomes PERIPHERAL_RESET;
otherwise the accumulated result stands.  Modelled from the spec: the
semaphore acquisition guarding the reinitialization uses an unbounded
wait (`portMAX_DELAY`) which, per spec section 4.5, must not be
abandoned, so it is modelled as succeeding. -/
def faultRecovery (t : SocketTable) (resetOk : Bool)
    (ret : Nat ⊕ SocketsStatus) (w : WIFI_Status) :
    (Nat ⊕ SocketsStatus) × SocketTable :=
  if w = WIFI_Status.ERROR then
    if resetOk then
      (Sum.inr SocketsStatus.PERIPHERAL_RESET, Sockets_Init t)
    else
      (ret, t)
  else
    (ret, t)

/-- Model of `Sockets_Recv`: clamp the length, run the polling loop against the
slot's receive timeout (the handle is not validated: the slot is read
directly), then run fault recovery.  Successful results are byte counts
(`Sum.inl`), failures are status codes (`Sum.inr`). -/
def Sockets_Recv (t : SocketTable) (env : RecvEnv) (xSocket len fuel : Nat) :
    Option ((Nat ⊕ SocketsStatus) × SocketTable) :=
  let sock := sockAt t xSocket
  let reqLen := clampRecvLen len
  match recvLoop env.step sock.ulReceiveTimeout env.tick0 reqLen 0 fuel
      WIFI_Status.OK with
  | none => none
  | some (ret, w) => some (faultRecovery t env.resetOk ret w)

/-- Environment of `Sockets_Send`: the semaphore acquisition, the driver
status, the bytes accepted as a function of the 16-bit request length
and of the slot's send timeout, and the reset result. -/
structure SendEnv where
  semTake : Bool
  wifiStatus : WIFI_Status
  sentBytes : Nat → Nat → Nat
  resetOk : Bool

/-- Model of `Sockets_Send`: `xRetVal` starts at SOCKET_ERROR; under the
semaphore the driver is handed the 16-bit length and the slot's send
timeout, a status of OK turning the result into the accepted byte
count; then fault recovery runs.  The handle is not validated. -/
def Sockets_Send (t : SocketTable) (env : SendEnv) (xSocket len : Nat) :
    (Nat ⊕ SocketsStatus) × SocketTable :=
  let sock := sockAt t xSocket
  let p :=
    if env.semTake then
      let w := env.wifiStatus
      let s := env.sentBytes (len % 65536) sock.ulSendTimeout % 65536
      (if w = WIFI_Status.OK then Sum.inl s
       else Sum.inr SocketsStatus.SOCKET_ERROR, w)
    else
      ((Sum.inr SocketsStatus.SOCKET_ERROR : Nat ⊕ SocketsStatus),
       WIFI_Status.OK)
  faultRecovery t env.resetOk p.1 p.2

/-- Scenario of spec section 8: the freshly initialized table. -/
def scenT0 : SocketTable := Sockets_Init initialTable

/-- First open of the scenario. -/
def scenOpen1 : Nat × SocketTable := Sockets_Open scenT0

/-- Second open. -/
def scenOpen2 : Nat × SocketTable := Sockets_Open scenOpen1.2

/-- Third open. -/
def scenOpen3 : Nat × SocketTable := Sockets_Open scenOpen2.2

/-- Fourth open: the table is now full. -/
def scenOpen4 : Nat × SocketTable := Sockets_Open scenOpen3.2

/-- Fifth open, against the exhausted table. -/
def scenOpen5 : Nat × SocketTable := Sockets_Open scenOpen4.2

/-- The scenario then closes handle 1. -/
def scenAfterClose : SocketTable := (Sockets_Close scenOpen5.2 1).2

/-- Final open of the scenario, reusing the freed slot. -/
def scenOpen6 : Nat × SocketTable := Sockets_Open scenAfterClose

/-- A table with slot 2 in use (flags 9, CONNECTED and SECURE) and the
other slots free. -/
def mixedTable : SocketTable :=
  setSock (Sockets_Init initialTable) 2
    { sockAt (Sockets_Init initialTable) 2 with ucInUse := 1, ulFlags := 9 }

/-- Receive environment whose first semaphore acquisition fails. -/
def recvEnvNoSem : RecvEnv :=
  ⟨fun _ => ⟨false, WIFI_Status.OK, fun _ => 0, 0⟩, false, 0⟩

/-- Receive environment: the driver reports a hardware error and the
module reset succeeds. -/
def recvEnvErr : RecvEnv :=
  ⟨fun _ => ⟨true, WIFI_Status.ERROR, fun _ => 0, 0⟩, true, 0⟩

/-- Receive environment: the driver reports a hardware error and the
module reset fails. -/
def recvEnvErrNoReset : RecvEnv :=
  ⟨fun _ => ⟨true, WIFI_Status.ERROR, fun _ => 0, 0⟩, false, 0⟩

/-- Receive environment: every poll is a hardware timeout and the clock
has advanced past any reasonable receive timeout by the first check. -/
def recvEnvTimeout : RecvEnv :=
  ⟨fun i => ⟨true, WIFI_Status.TIMEOUT, fun _ => 0, 20000 * (i + 1)⟩, false, 0⟩

/-- Receive environment: the driver always delivers exactly as many
bytes as requested. -/
def recvEnvData : RecvEnv :=
  ⟨fun _ => ⟨true, WIFI_Status.OK, fun l => l, 0⟩, false, 0⟩

/-- Receive environment: the first poll is a benign hardware timeout
well inside the receive-timeout budget, and the second semaphore
acquisition fails. -/
def recvEnvSemFailLater : RecvEnv :=
  ⟨fun i =>
    if i = 0 then ⟨true, WIFI_Status.TIMEOUT, fun _ => 0, 1⟩
    else ⟨false, WIFI_Status.OK, fun _ => 0, 1⟩, false, 0⟩

/-- Send environment: hardware error, reset succeeds. -/
def sendEnvErr : SendEnv := ⟨true, WIFI_Status.ERROR, fun _ _ => 0, true⟩

/-- Send environment: hardware error, reset fails. -/
def sendEnvErrNoReset : SendEnv := ⟨true, WIFI_Status.ERROR, fun _ _ => 0, false⟩

/-- Connect environment in which every stage succeeds. -/
def connectEnvOk : ConnectEnv := ⟨true, true, 5, true, true⟩

/-- Connect environment in which the DNS lookup fails. -/
def connectEnvNoDns : ConnectEnv := ⟨true, false, 5, true, true⟩

/-- Connect environment in which the channel-lock acquisition fails. -/
def connectEnvNoSem : ConnectEnv := ⟨true, true, 5, false, true⟩

/-- Connect environment in which the driver connect command fails. -/
def connectEnvNoConn : ConnectEnv := ⟨true, true, 5, true, false⟩

section Helpers

lemma sockAt_setSock_self {t : SocketTable} {n : Nat} (s : STSecureSocket)
    (hn : n < t.length) : sockAt (setSock t n s) n = s := by
  simp [sockAt, setSock, List.getElem?_set, hn]

lemma sockAt_setSock_ne {t : SocketTable} {n i : Nat} (s : STSecureSocket)
    (hni : n ≠ i) : sockAt (setSock t n s) i = sockAt t i := by
  simp [sockAt, setSock, List.getElem?_set, hni]

lemma setSock_oob {t : SocketTable} {n : Nat} (s : STSecureSocket)
    (hn : t.length ≤ n) : setSock t n s = t :=
  List.set_eq_of_length_le hn

lemma sockAt_oob {t : SocketTable} {i : Nat} (hi : t.length ≤ i) :
    sockAt t i = ⟨0, 0, 0, 0, 0⟩ := by
  simp [sockAt, List.getElem?_eq_none hi]

/-- Reading a slot of `Sockets_Init t`. -/
lemma sockAt_init (t : SocketTable) (i : Nat) :
    sockAt (Sockets_Init t) i =
      if i < t.length then
        { sockAt t i with
          ucInUse := 0
          ulFlags := stsecuresocketsSOCKET_READ_CLOSED_FLAG |||
                     stsecuresocketsSOCKET_WRITE_CLOSED_FLAG }
      else ⟨0, 0, 0, 0, 0⟩ := by
  by_cases hi : i < t.length
  · have hget : t[i]? = some t[i] := List.getElem?_eq_getElem hi
    have hat : sockAt t i = t[i] := by simp [sockAt, hget]
    simp [Sockets_Init, sockAt, List.getElem?_map, hget, hat, hi]
  · have hle : t.length ≤ i := Nat.le_of_not_lt hi
    have h1 : (t.map fun s =>
        ({ s with
           ucInUse := 0
           ulFlags := stsecuresocketsSOCKET_READ_CLOSED_FLAG |||
                      stsecuresocketsSOCKET_WRITE_CLOSED_FLAG } :
          STSecureSocket)).length ≤ i := by simpa using hle
    simp [Sockets_Init, sockAt_oob h1, hi]

lemma esWifi_setSock {t : SocketTable} {n : Nat} {s : STSecureSocket}
    (hs : s.esWifiSocketNumber = (sockAt t n).esWifiSocketNumber) (i : Nat) :
    (sockAt (setSock t n s) i).esWifiSocketNumber =
      (sockAt t i).esWifiSocketNumber := by
  by_cases hni : n = i
  · subst hni
    by_cases hn : n < t.length
    · rw [sockAt_setSock_self s hn, hs]
    · rw [setSock_oob s (Nat.le_of_not_lt hn)]
  · rw [sockAt_setSock_ne s hni]

lemma and8_or8 (a : Nat) : (a ||| 8) &&& 8 = 8 := by
  have h8 : (8 : Nat) = 2 ^ 3 := by norm_num
  rw [h8, Nat.and_two_pow, Nat.testBit_or]
  simp
  exact Or.inr (by decide)

end Helpers

section LoopLemmas

/-- If the receive loop exits with the driver status ERROR, the loop's
`xRetVal` is the generic socket error (the ERROR exit is the only one
producing that status, since a failed semaphore acquisition reports the
carried-over status and the other exits report OK or TIMEOUT). -/
lemma recvLoop_error_ret (step : Nat → RecvStep) (rT t0 L : Nat) :
    ∀ fuel i wPrev ret, wPrev ≠ WIFI_Status.ERROR →
      recvLoop step rT t0 L i fuel wPrev = some (ret, WIFI_Status.ERROR) →
      ret = Sum.inr SocketsStatus.SOCKET_ERROR := by
  intro fuel
  induction fuel with
  | zero => intro i wPrev ret _ h; simp [recvLoop] at h
  | succ f ih =>
    intro i wPrev ret hw h
    rw [recvLoop] at h
    by_cases hTake : (step i).semTake
    · simp only [hTake, if_true] at h
      by_cases hOk : (step i).wifiStatus = WIFI_Status.OK ∧
          (step i).recvBytes L % 65536 ≠ 0
      · rw [if_pos hOk] at h
        have h2 : (step i).wifiStatus = WIFI_Status.ERROR :=
          congrArg Prod.snd (Option.some.inj h)
        rw [hOk.1] at h2
        exact absurd h2 (by decide)
      · rw [if_neg hOk] at h
        by_cases hTo : (step i).wifiStatus = WIFI_Status.TIMEOUT ∨
            ((step i).wifiStatus = WIFI_Status.OK ∧
             (step i).recvBytes L % 65536 = 0)
        · rw [if_pos hTo] at h
          by_cases hTick : usub32 (step i).tickNow t0 < rT
          · rw [if_pos hTick] at h
            refine ih (i + 1) (step i).wifiStatus ret ?_ h
            rcases hTo with h1 | h1 <;> simp [h1]
          · rw [if_neg hTick] at h
            have := congrArg Prod.snd (Option.some.inj h)
            rcases hTo with h1 | h1 <;> simp [h1] at this
        · rw [if_neg hTo] at h
          exact (congrArg Prod.fst (Option.some.inj h)).symm
    · simp only [hTake, if_false] at h
      exact absurd (congrArg Prod.snd (Option.some.inj h)) (by simpa using hw)

/-- Every successful byte count the receive loop can report is bounded
by the requested (already clamped) length, provided the driver delivers
no more bytes than it was asked for. -/
lemma recvLoop_bytes_le (step : Nat → RecvStep) (rT t0 L : Nat)
    (hdrv : ∀ i l, (step i).recvBytes l ≤ l) :
    ∀ fuel i wPrev n w,
      recvLoop step rT t0 L i fuel wPrev = some (Sum.inl n, w) → n ≤ L := by
  intro fuel
  induction fuel with
  | zero => intro i wPrev n w h; simp [recvLoop] at h
  | succ f ih =>
    intro i wPrev n w h
    rw [recvLoop] at h
    by_cases hTake : (step i).semTake
    · simp only [hTake, if_true] at h
      by_cases hOk : (step i).wifiStatus = WIFI_Status.OK ∧
          (step i).recvBytes L % 65536 ≠ 0
      · rw [if_pos hOk] at h
        have h1 := congrArg Prod.fst (Option.some.inj h)
        simp only at h1
        have : n = (step i).recvBytes L % 65536 := by
          have := Sum.inl.inj h1.symm
          omega
        calc n = (step i).recvBytes L % 65536 := this
          _ ≤ (step i).recvBytes L := Nat.mod_le _ _
          _ ≤ L := hdrv i L
      · rw [if_neg hOk] at h
        by_cases hTo : (step i).wifiStatus = WIFI_Status.TIMEOUT ∨
            ((step i).wifiStatus = WIFI_Status.OK ∧
             (step i).recvBytes L % 65536 = 0)
        · rw [if_pos hTo] at h
          by_cases hTick : usub32 (step i).tickNow t0 < rT
          · rw [if_pos hTick] at h
            exact ih (i + 1) (step i).wifiStatus n w h
          · rw [if_neg hTick] at h
            have h1 := congrArg Prod.fst (Option.some.inj h)
            simp only at h1
            have : n = 0 := by
              have := Sum.inl.inj h1.symm
              omega
            omega
        · rw [if_neg hTo] at h
          have h1 := congrArg Prod.fst (Option.some.inj h)
          simp at h1
    · simp only [hTake, if_false] at h
      have h1 := congrArg Prod.fst (Option.some.inj h)
      simp only at h1
      have : n = 0 := by
        have := Sum.inl.inj h1.symm
        omega
      omega

/-- If every iteration up to some bound acquires its semaphore and polls
only hardware timeouts or zero-byte successes, and at the bound the
elapsed ticks have reached the receive timeout, the loop exits with a
zero-byte result and a non-ERROR driver status. -/
lemma recvLoop_timeout_exit (step : Nat → RecvStep) (rT t0 L : Nat) :
    ∀ k i fuel wPrev,
      (∀ j, i ≤ j → j ≤ i + k →
        (step j).semTake = true ∧
        ((step j).wifiStatus = WIFI_Status.TIMEOUT ∨
         ((step j).wifiStatus = WIFI_Status.OK ∧
          (step j).recvBytes L % 65536 = 0))) →
      rT ≤ usub32 (step (i + k)).tickNow t0 →
      k < fuel →
      ∃ w, recvLoop step rT t0 L i fuel wPrev = some (Sum.inl 0, w) ∧
        w ≠ WIFI_Status.ERROR := by
  intro k
  induction k with
  | zero =>
    intro i fuel wPrev hsteps hTick hfuel
    obtain ⟨fuel, rfl⟩ : ∃ f, fuel = f + 1 :=
      ⟨fuel - 1, by omega⟩
    obtain ⟨hTake, hTo⟩ := hsteps i (Nat.le_refl i) (by omega)
    rw [recvLoop]
    simp only [hTake, if_true]
    have hOk : ¬ ((step i).wifiStatus = WIFI_Status.OK ∧
        (step i).recvBytes L % 65536 ≠ 0) := by
      rcases hTo with h1 | h1 <;> simp [h1]
    rw [if_neg hOk, if_pos hTo,
        if_neg (by simpa using Nat.not_lt.mpr (by simpa using hTick))]
    refine ⟨(step i).wifiStatus, rfl, ?_⟩
    rcases hTo with h1 | h1 <;> simp [h1]
  | succ k ih =>
    intro i fuel wPrev hsteps hTick hfuel
    obtain ⟨fuel, rfl⟩ : ∃ f, fuel = f + 1 :=
      ⟨fuel - 1, by omega⟩
    obtain ⟨hTake, hTo⟩ := hsteps i (Nat.le_refl i) (by omega)
    rw [recvLoop]
    simp only [hTake, if_true]
    have hOk : ¬ ((step i).wifiStatus = WIFI_Status.OK ∧
        (step i).recvBytes L % 65536 ≠ 0) := by
      rcases hTo with h1 | h1 <;> simp [h1]
    rw [if_neg hOk, if_pos hTo]
    by_cases hT : usub32 (step i).tickNow t0 < rT
    · rw [if_pos hT]
      refine ih (i + 1) fuel (step i).wifiStatus ?_ ?_ (by omega)
      · intro j hj1 hj2
        exact hsteps j (by omega) (by omega)
      · have : i + 1 + k = i + (k + 1) := by omega
        rw [this]
        exact hTick
    · rw [if_neg hT]
      refine ⟨(step i).wifiStatus, rfl, ?_⟩
      rcases hTo with h1 | h1 <;> simp [h1]

/-- If the iterations before some bound all acquire their semaphore and
poll only benign outcomes (hardware timeout or zero bytes) with the
elapsed ticks still inside the receive timeout, and the acquisition at
the bound fails, the loop exits there with a zero-byte result and a
non-ERROR driver status. -/
lemma recvLoop_semfail_exit (step : Nat → RecvStep) (rT t0 L : Nat) :
    ∀ j i fuel wPrev, wPrev ≠ WIFI_Status.ERROR →
      (∀ m, m < j →
        (step (i + m)).semTake = true ∧
        ((step (i + m)).wifiStatus = WIFI_Status.TIMEOUT ∨
         ((step (i + m)).wifiStatus = WIFI_Status.OK ∧
          (step (i + m)).recvBytes L % 65536 = 0)) ∧
        usub32 (step (i + m)).tickNow t0 < rT) →
      (step (i + j)).semTake = false →
      j < fuel →
      ∃ w, recvLoop step rT t0 L i fuel wPrev = some (Sum.inl 0, w) ∧
        w ≠ WIFI_Status.ERROR := by
  intro j
  induction j with
  | zero =>
    intro i fuel wPrev hw _ hfail hfuel
    obtain ⟨fuel, rfl⟩ : ∃ f, fuel = f + 1 := ⟨fuel - 1, by omega⟩
    rw [recvLoop]
    have hfail' : (step i).semTake = false := by simpa using hfail
    simp only [hfail', Bool.false_eq_true, if_false]
    exact ⟨wPrev, rfl, hw⟩
  | succ j ih =>
    intro i fuel wPrev _ hben hfail hfuel
    obtain ⟨fuel, rfl⟩ : ∃ f, fuel = f + 1 := ⟨fuel - 1, by omega⟩
    obtain ⟨hTake, hTo, hTick⟩ := hben 0 (by omega)
    rw [recvLoop]
    have hTake' : (step i).semTake = true := by simpa using hTake
    have hTo' : (step i).wifiStatus = WIFI_Status.TIMEOUT ∨
        ((step i).wifiStatus = WIFI_Status.OK ∧
         (step i).recvBytes L % 65536 = 0) := by simpa using hTo
    have hTick' : usub32 (step i).tickNow t0 < rT := by simpa using hTick
    simp only [hTake', if_true]
    have hOk : ¬ ((step i).wifiStatus = WIFI_Status.OK ∧
        (step i).recvBytes L % 65536 ≠ 0) := by
      rcases hTo' with h1 | h1 <;> simp [h1]
    rw [if_neg hOk, if_pos hTo', if_pos hTick']
    refine ih (i + 1) fuel (step i).wifiStatus ?_ ?_ ?_ (by omega)
    · rcases hTo' with h1 | h1 <;> simp [h1]
    · intro m hm
      have := hben (m + 1) (by omega)
      have harith : i + (m + 1) = i + 1 + m := by omega
      rw [harith] at this
      exact this
    · have harith : i + (j + 1) = i + 1 + j := by omega
      rw [harith] at hfail
      exact hfail

/-- Result `findFreeIndex t k = some i` means slot `i - k` is the first free
slot of `t` (relative to the scan start `k`). -/
lemma findFreeIndex_some :
    ∀ (t : SocketTable) (k i : Nat), findFreeIndex t k = some i →
      k ≤ i ∧ i - k < t.length ∧ (sockAt t (i - k)).ucInUse = 0 ∧
      ∀ m, m < i - k → (sockAt t m).ucInUse ≠ 0 := by
  intro t
  induction t with
  | nil => intro k i h; simp [findFreeIndex] at h
  | cons s rest ih =>
    intro k i h
    rw [findFreeIndex] at h
    by_cases hs : s.ucInUse = 0
    · rw [if_pos hs] at h
      obtain rfl : k = i := Option.some.inj h
      refine ⟨Nat.le_refl k, by simp, ?_, ?_⟩
      · simpa [sockAt] using hs
      · intro m hm; omega
    · rw [if_neg hs] at h
      obtain ⟨h1, h2, h3, h4⟩ := ih (k + 1) i h
      have hik : i - k = (i - (k + 1)) + 1 := by omega
      refine ⟨by omega, by simp; omega, ?_, ?_⟩
      · rw [hik]
        simpa [sockAt] using h3
      · intro m hm
        match m with
        | 0 => simpa [sockAt] using hs
        | m + 1 =>
          have : m < i - (k + 1) := by omega
          simpa [sockAt] using h4 m this

end LoopLemmas

section PreservationLemmas

lemma esWifi_init (t : SocketTable) (i : Nat) :
    (sockAt (Sockets_Init t) i).esWifiSocketNumber =
      (sockAt t i).esWifiSocketNumber := by
  rw [sockAt_init]
  by_cases hi : i < t.length
  · simp [hi]
  · simp [hi, sockAt_oob (Nat.le_of_not_lt hi)]

lemma esWifi_getFree (t : SocketTable) (i : Nat) :
    (sockAt (prvGetFreeSocket t).2 i).esWifiSocketNumber =
      (sockAt t i).esWifiSocketNumber := by
  cases hf : findFreeIndex t 0 with
  | none => unfold prvGetFreeSocket; rw [hf]
  | some j =>
    unfold prvGetFreeSocket
    rw [hf]
    refine esWifi_setSock ?_ i
    rfl

lemma esWifi_open (t : SocketTable) (i : Nat) :
    (sockAt (Sockets_Open t).2 i).esWifiSocketNumber =
      (sockAt t i).esWifiSocketNumber := by
  unfold Sockets_Open
  by_cases hv : prvIsValidSocket (prvGetFreeSocket t).2 (prvGetFreeSocket t).1
  · simp only [hv, if_true]
    calc (sockAt (setSock (prvGetFreeSocket t).2 (prvGetFreeSocket t).1
          { sockAt (prvGetFreeSocket t).2 (prvGetFreeSocket t).1 with
            ulFlags := stsecuresocketsSOCKET_SECURE_FLAG
            ulSendTimeout := socketsconfigDEFAULT_SEND_TIMEOUT
            ulReceiveTimeout := socketsconfigDEFAULT_RECV_TIMEOUT }) i).esWifiSocketNumber
        = (sockAt (prvGetFreeSocket t).2 i).esWifiSocketNumber := by
          refine esWifi_setSock ?_ i
          rfl
      _ = (sockAt t i).esWifiSocketNumber := esWifi_getFree t i
  · simp only [hv, if_false]
    exact esWifi_getFree t i

lemma esWifi_close (t : SocketTable) (h i : Nat) :
    (sockAt (Sockets_Close t h).2 i).esWifiSocketNumber =
      (sockAt t i).esWifiSocketNumber := by
  unfold Sockets_Close
  by_cases hv : prvIsValidSocket t h
  · simp only [hv, if_true]
    unfold prvReturnSocket
    refine esWifi_setSock ?_ i
    rfl
  · simp [hv]

lemma esWifi_connect (t : SocketTable) (e : ConnectEnv) (h port i : Nat) :
    (sockAt (Sockets_Connect t e h port).table i).esWifiSocketNumber =
      (sockAt t i).esWifiSocketNumber := by
  unfold Sockets_Connect
  by_cases hv : prvIsValidSocket t h = false
  · simp [hv]
  · by_cases hd : (prvGetHostByName e).1 = 0
    · simp [hv, hd]
    · by_cases hs : e.semTake = false
      · simp [hv, hd, hs]
      · by_cases hcOk : e.connectOk
        · rw [if_neg hv, if_neg hd, if_neg hs, if_pos hcOk]
          refine esWifi_setSock ?_ i
          rfl
        · simp [hv, hd, hs, hcOk]

lemma esWifi_disconnect (t : SocketTable) (b : Bool) (h i : Nat) :
    (sockAt (Sockets_Disconnect t b h) i).esWifiSocketNumber =
      (sockAt t i).esWifiSocketNumber := by
  unfold Sockets_Disconnect
  by_cases hv : prvIsValidSocket t h
  · simp only [hv, if_true]
    unfold prvReturnSocket
    have h1 : (sockAt (setSock t h
          { sockAt t h with
            ulFlags := (sockAt t h).ulFlags |||
                       stsecuresocketsSOCKET_READ_CLOSED_FLAG |||
                       stsecuresocketsSOCKET_WRITE_CLOSED_FLAG }) i).esWifiSocketNumber =
        (sockAt t i).esWifiSocketNumber := by
      refine esWifi_setSock ?_ i
      rfl
    rw [← h1]
    refine esWifi_setSock ?_ i
    rfl
  · simp [hv]

lemma esWifi_setsockopt (t : SocketTable) (h : Nat) (o : SockOptName)
    (v i : Nat) :
    (sockAt (Sockets_SetSockOpt t h o v).2 i).esWifiSocketNumber =
      (sockAt t i).esWifiSocketNumber := by
  unfold Sockets_SetSockOpt
  by_cases hv : prvIsValidSocket t h = false
  · simp [hv]
  · cases o with
    | SO_RCVTIMEO =>
        rw [if_neg hv]
        refine esWifi_setSock ?_ i
        rfl
    | SO_SNDTIMEO =>
        rw [if_neg hv]
        refine esWifi_setSock ?_ i
        rfl
    | OTHER c => rw [if_neg hv]

lemma esWifi_recv (t : SocketTable) (env : RecvEnv) (h len fuel : Nat)
    (r : Nat ⊕ SocketsStatus) (u : SocketTable) (i : Nat)
    (hr : Sockets_Recv t env h len fuel = some (r, u)) :
    (sockAt u i).esWifiSocketNumber = (sockAt t i).esWifiSocketNumber := by
  simp only [Sockets_Recv] at hr
  cases hl : recvLoop env.step (sockAt t h).ulReceiveTimeout env.tick0
      (clampRecvLen len) 0 fuel WIFI_Status.OK with
  | none => rw [hl] at hr; simp at hr
  | some p =>
    rw [hl] at hr
    have hu : u = (faultRecovery t env.resetOk p.1 p.2).2 := by
      cases p with
      | mk ret w =>
        simp only [Option.some.injEq] at hr
        exact (congrArg Prod.snd hr).symm
    rw [hu]
    unfold faultRecovery
    by_cases hw : p.2 = WIFI_Status.ERROR
    · by_cases hres : env.resetOk
      · simp [hw, hres, esWifi_init]
      · simp [hw, hres]
    · simp [hw]

lemma esWifi_send (t : SocketTable) (env : SendEnv) (h len i : Nat) :
    (sockAt (Sockets_Send t env h len).2 i).esWifiSocketNumber =
      (sockAt t i).esWifiSocketNumber := by
  unfold Sockets_Send faultRecovery
  by_cases hTake : env.semTake <;>
    by_cases hw : env.wifiStatus = WIFI_Status.ERROR <;>
      by_cases hres : env.resetOk <;>
        simp [hTake, hw, hres, esWifi_init]

end PreservationLemmas

section MoreHelpers

lemma prvGetHostByName_sem (e : ConnectEnv) : (prvGetHostByName e).2 = false := by
  unfold prvGetHostByName
  by_cases hd : e.dnsSemTake <;> simp [hd]

/-- Every slot of a reinitialized table is free with both closed flags
set. -/
lemma init_slots (t : SocketTable) :
    ∀ s ∈ Sockets_Init t, s.ucInUse = 0 ∧
      s.ulFlags &&& stsecuresocketsSOCKET_READ_CLOSED_FLAG ≠ 0 ∧
      s.ulFlags &&& stsecuresocketsSOCKET_WRITE_CLOSED_FLAG ≠ 0 := by
  intro s hs
  obtain ⟨a, _, rfl⟩ := List.mem_map.mp hs
  refine ⟨rfl, ?_, ?_⟩
  · show (stsecuresocketsSOCKET_READ_CLOSED_FLAG |||
        stsecuresocketsSOCKET_WRITE_CLOSED_FLAG) &&&
        stsecuresocketsSOCKET_READ_CLOSED_FLAG ≠ 0
    decide
  · show (stsecuresocketsSOCKET_READ_CLOSED_FLAG |||
        stsecuresocketsSOCKET_WRITE_CLOSED_FLAG) &&&
        stsecuresocketsSOCKET_WRITE_CLOSED_FLAG ≠ 0
    decide

end MoreHelpers

/-- C10: `Sockets_Close` returns `SOCKETS_ERROR_NONE` for every handle
value, including out-of-range handles and handles of free slots, in
which case the table is unchanged; for a valid in-use handle it only
clears the slot's `ucInUse` field, leaving flags and both timeouts
unchanged.  (`Sockets_Close` takes no channel environment: it issues no
channel command.) -/
theorem c10_close_total_frame (t : SocketTable) (h : Nat) :
    (Sockets_Close t h).1 = SocketsStatus.ERROR_NONE ∧
    (prvIsValidSocket t h = false → (Sockets_Close t h).2 = t) ∧
    (prvIsValidSocket t h = true →
      (Sockets_Close t h).2 = setSock t h { sockAt t h with ucInUse := 0 }) := by
  refine ⟨?_, ?_, ?_⟩
  · unfold Sockets_Close
    by_cases hv : prvIsValidSocket t h <;> simp [hv]
  · intro hv
    simp [Sockets_Close, hv]
  · intro hv
    simp [Sockets_Close, hv, prvReturnSocket]

/-- Witness for C10 at concrete inputs: handle 9 on the initialized
table (invalid, no mutation) and handle 0 freshly opened (valid, only
the in-use bit cleared). -/
theorem c10_close_total_frame_witness :
    (Sockets_Close (Sockets_Init initialTable) 9).2 = Sockets_Init initialTable ∧
    (Sockets_Close (Sockets_Open (Sockets_Init initialTable)).2 0).2 =
      setSock (Sockets_Open (Sockets_Init initialTable)).2 0
        { sockAt (Sockets_Open (Sockets_Init initialTable)).2 0 with
          ucInUse := 0 } :=
  ⟨(c10_close_total_frame (Sockets_Init initialTable) 9).2.1 (by decide),
   (c10_close_total_frame (Sockets_Open (Sockets_Init initialTable)).2 0).2.2
     (by decide)⟩

/-- C4: allocation scans index-ascending and marks the first free slot
in-use; on the concrete scenario, four opens from the initialized table
return 0,1,2,3, a fifth returns the invalid sentinel, and after closing
handle 1 the next open returns 1 with both timeouts at the 10000 ms
default. -/
theorem c4_alloc_scan :
    (scenOpen1.1 = 0 ∧ scenOpen2.1 = 1 ∧ scenOpen3.1 = 2 ∧ scenOpen4.1 = 3 ∧
     scenOpen5.1 = SOCKETS_INVALID_SOCKET ∧ scenOpen6.1 = 1 ∧
     (sockAt scenOpen6.2 1).ulSendTimeout = socketsconfigDEFAULT_SEND_TIMEOUT ∧
     (sockAt scenOpen6.2 1).ulReceiveTimeout = socketsconfigDEFAULT_RECV_TIMEOUT) ∧
    ∀ t i, findFreeIndex t 0 = some i →
      prvGetFreeSocket t = (i, setSock t i { sockAt t i with ucInUse := 1 }) ∧
      (sockAt t i).ucInUse = 0 ∧ ∀ m, m < i → (sockAt t m).ucInUse ≠ 0 := by
  refine ⟨by decide, ?_⟩
  intro t i hf
  have hspec := findFreeIndex_some t 0 i hf
  refine ⟨by unfold prvGetFreeSocket; rw [hf], ?_, ?_⟩
  · simpa using hspec.2.2.1
  · intro m hm
    exact hspec.2.2.2 m (by omega)

/-- Witness for C4's general conjunct: the scan of the scenario table
after closing handle 1 finds exactly slot 1. -/
theorem c4_alloc_scan_witness :
    prvGetFreeSocket scenAfterClose =
      (1, setSock scenAfterClose 1 { sockAt scenAfterClose 1 with ucInUse := 1 }) ∧
    (sockAt scenAfterClose 1).ucInUse = 0 :=
  ⟨(c4_alloc_scan.2 scenAfterClose 1 (by decide)).1,
   (c4_alloc_scan.2 scenAfterClose 1 (by decide)).2.1⟩

/-- C8: `Sockets_SetSockOpt` with the receive-timeout option stores the
32-bit value in the slot's `ulReceiveTimeout` and with the send-timeout
option in `ulSendTimeout`, returning `SOCKETS_ERROR_NONE`; any other
option code returns `SOCKETS_ENOPROTOOPT` with the table untouched; an
invalid handle returns `SOCKETS_EINVAL` with the table untouched. -/
theorem c8_setsockopt_cases (t : SocketTable) (h v : Nat) :
    (prvIsValidSocket t h = true →
      Sockets_SetSockOpt t h SockOptName.SO_RCVTIMEO v =
        (SocketsStatus.ERROR_NONE,
         setSock t h { sockAt t h with ulReceiveTimeout := v % 4294967296 }) ∧
      Sockets_SetSockOpt t h SockOptName.SO_SNDTIMEO v =
        (SocketsStatus.ERROR_NONE,
         setSock t h { sockAt t h with ulSendTimeout := v % 4294967296 })) ∧
    (∀ c, prvIsValidSocket t h = true →
      Sockets_SetSockOpt t h (SockOptName.OTHER c) v =
        (SocketsStatus.ENOPROTOOPT, t)) ∧
    (∀ o, prvIsValidSocket t h = false →
      Sockets_SetSockOpt t h o v = (SocketsStatus.EINVAL, t)) := by
  refine ⟨?_, ?_, ?_⟩
  · intro hv
    constructor <;> simp [Sockets_SetSockOpt, hv]
  · intro c hv
    simp [Sockets_SetSockOpt, hv]
  · intro o hv
    simp [Sockets_SetSockOpt, hv]

/-- Witness for C8 at concrete inputs: both timeout options and an
unsupported option on a freshly opened handle 0, plus an invalid
handle. -/
theorem c8_setsockopt_cases_witness :
    Sockets_SetSockOpt (Sockets_Open (Sockets_Init initialTable)).2 0
        SockOptName.SO_RCVTIMEO 77 =
      (SocketsStatus.ERROR_NONE,
       setSock (Sockets_Open (Sockets_Init initialTable)).2 0
         { sockAt (Sockets_Open (Sockets_Init initialTable)).2 0 with
           ulReceiveTimeout := 77 % 4294967296 }) ∧
    Sockets_SetSockOpt (Sockets_Open (Sockets_Init initialTable)).2 0
        (SockOptName.OTHER 5) 77 =
      (SocketsStatus.ENOPROTOOPT, (Sockets_Open (Sockets_Init initialTable)).2) ∧
    Sockets_SetSockOpt (Sockets_Init initialTable) 2 SockOptName.SO_SNDTIMEO 9 =
      (SocketsStatus.EINVAL, Sockets_Init initialTable) :=
  ⟨((c8_setsockopt_cases (Sockets_Open (Sockets_Init initialTable)).2 0 77).1
      (by decide)).1,
   (c8_setsockopt_cases (Sockets_Open (Sockets_Init initialTable)).2 0 77).2.1 5
     (by decide),
   (c8_setsockopt_cases (Sockets_Init initialTable) 2 9).2.2
     SockOptName.SO_SNDTIMEO (by decide)⟩

/-- C2 counterexample: on a table where slot 0 is free (hence handle 0
is invalid) and slot 2 is in use, `Sockets_Recv` with handle 0 does not
return immediately: it issues the driver poll, and after the driver
reports a hardware error its recovery path rewrites the whole table —
slot 2 is mutated — contradicting the claim that invalid handles are
detected synchronously with no slot read or written and no channel
command issued. -/
theorem c2_counterexample :
    prvIsValidSocket mixedTable 0 = false ∧
    Sockets_Recv mixedTable recvEnvErr 0 10 5 =
      some (Sum.inr SocketsStatus.PERIPHERAL_RESET, Sockets_Init mixedTable) ∧
    Sockets_Init mixedTable ≠ mixedTable := by
  decide

/-- C2 (amended): `Sockets_Connect`, `Sockets_Close`,
`Sockets_Disconnect` and `Sockets_SetSockOpt` validate the handle
(in range and slot in use, `prvIsValidSocket`) before touching slot
state and return immediately with no side effect on an invalid handle;
`Sockets_Recv` and `Sockets_Send` perform no such validation. -/
theorem c2_validated_ops (t : SocketTable) (h : Nat)
    (hv : prvIsValidSocket t h = false) :
    (∀ e port, Sockets_Connect t e h port =
      ⟨SocketsStatus.ENOMEM, t, false⟩) ∧
    Sockets_Close t h = (SocketsStatus.ERROR_NONE, t) ∧
    (∀ b, Sockets_Disconnect t b h = t) ∧
    (∀ o v, Sockets_SetSockOpt t h o v = (SocketsStatus.EINVAL, t)) := by
  refine ⟨?_, ?_, ?_, ?_⟩
  · intro e port
    simp [Sockets_Connect, hv]
  · simp [Sockets_Close, hv]
  · intro b
    simp [Sockets_Disconnect, hv]
  · intro o v
    simp [Sockets_SetSockOpt, hv]

/-- Witness for C2's amended theorem: handle 0 on the freshly
initialized table is invalid and each validated operation is a no-op
with its documented error status. -/
theorem c2_validated_ops_witness :
    Sockets_Connect (Sockets_Init initialTable) connectEnvOk 0 80 =
      ⟨SocketsStatus.ENOMEM, Sockets_Init initialTable, false⟩ ∧
    Sockets_Close (Sockets_Init initialTable) 0 =
      (SocketsStatus.ERROR_NONE, Sockets_Init initialTable) ∧
    Sockets_Disconnect (Sockets_Init initialTable) true 0 =
      Sockets_Init initialTable ∧
    Sockets_SetSockOpt (Sockets_Init initialTable) 0 SockOptName.SO_RCVTIMEO 7 =
      (SocketsStatus.EINVAL, Sockets_Init initialTable) :=
  ⟨(c2_validated_ops (Sockets_Init initialTable) 0 (by decide)).1 connectEnvOk 80,
   (c2_validated_ops (Sockets_Init initialTable) 0 (by decide)).2.1,
   (c2_validated_ops (Sockets_Init initialTable) 0 (by decide)).2.2.1 true,
   (c2_validated_ops (Sockets_Init initialTable) 0 (by decide)).2.2.2
     SockOptName.SO_RCVTIMEO 7⟩

/-- C9 counterexample: after `Sockets_Init` the `esWifiSocketNumber`
field of slot 1 is 0, not the slot's own index 1 — the initialization
loop never writes that field, so it keeps its static zero. -/
theorem c9_counterexample :
    (sockAt (Sockets_Init initialTable) 1).esWifiSocketNumber = 0 ∧
    (sockAt (Sockets_Init initialTable) 1).esWifiSocketNumber ≠ 1 := by
  decide

/-- C9 (amended): the `esWifiSocketNumber` field is never written by any
operation: it is 0 for every slot of the static initial table and every
operation of the surface leaves it unchanged on every slot. -/
theorem c9_eswifi_constant :
    (∀ i, (sockAt initialTable i).esWifiSocketNumber = 0) ∧
    ∀ t : SocketTable,
      (∀ i, (sockAt (Sockets_Init t) i).esWifiSocketNumber =
        (sockAt t i).esWifiSocketNumber) ∧
      (∀ i, (sockAt (Sockets_Open t).2 i).esWifiSocketNumber =
        (sockAt t i).esWifiSocketNumber) ∧
      (∀ h i, (sockAt (Sockets_Close t h).2 i).esWifiSocketNumber =
        (sockAt t i).esWifiSocketNumber) ∧
      (∀ e h port i, (sockAt (Sockets_Connect t e h port).table i).esWifiSocketNumber =
        (sockAt t i).esWifiSocketNumber) ∧
      (∀ b h i, (sockAt (Sockets_Disconnect t b h) i).esWifiSocketNumber =
        (sockAt t i).esWifiSocketNumber) ∧
      (∀ h o v i, (sockAt (Sockets_SetSockOpt t h o v).2 i).esWifiSocketNumber =
        (sockAt t i).esWifiSocketNumber) ∧
      (∀ env h len fuel r u, Sockets_Recv t env h len fuel = some (r, u) →
        ∀ i, (sockAt u i).esWifiSocketNumber = (sockAt t i).esWifiSocketNumber) ∧
      (∀ env h len i, (sockAt (Sockets_Send t env h len).2 i).esWifiSocketNumber =
        (sockAt t i).esWifiSocketNumber) := by
  constructor
  · intro i
    unfold initialTable sockAt
    rw [List.getElem?_replicate]
    by_cases hi : i < wificonfigMAX_SOCKETS <;> simp [hi]
  · intro t
    refine ⟨esWifi_init t, esWifi_open t, esWifi_close t,
      fun e h port i => esWifi_connect t e h port i,
      fun b h i => esWifi_disconnect t b h i,
      fun h o v i => esWifi_setsockopt t h o v i,
      fun env h len fuel r u hr i => esWifi_recv t env h len fuel r u i hr,
      fun env h len i => esWifi_send t env h len i⟩

/-- Witness for C9's amended theorem: the recovery path of a receive on
the mixed table leaves slot 2's `esWifiSocketNumber` unchanged. -/
theorem c9_eswifi_constant_witness :
    (sockAt (Sockets_Init mixedTable) 2).esWifiSocketNumber =
      (sockAt mixedTable 2).esWifiSocketNumber :=
  (c9_eswifi_constant.2 mixedTable).2.2.2.2.2.2.1 recvEnvErr 0 10 5
    (Sum.inr SocketsStatus.PERIPHERAL_RESET) (Sockets_Init mixedTable)
    (by decide) 2

/-- C6: `Sockets_Connect` follows exactly the documented decision
sequence — invalid handle gives ENOMEM; a zero DNS result gives the
generic socket error; a failed lock acquisition gives the generic
socket error; a successful driver connect ORs CONNECTED into the slot
and returns success; a failed connect gives the generic socket error —
and the channel semaphore is never still held on exit. -/
theorem c6_connect_sequence (t : SocketTable) (e : ConnectEnv) (h port : Nat) :
    (prvIsValidSocket t h = false →
      Sockets_Connect t e h port = ⟨SocketsStatus.ENOMEM, t, false⟩) ∧
    (prvIsValidSocket t h = true → (prvGetHostByName e).1 = 0 →
      Sockets_Connect t e h port = ⟨SocketsStatus.SOCKET_ERROR, t, false⟩) ∧
    (prvIsValidSocket t h = true → (prvGetHostByName e).1 ≠ 0 →
      e.semTake = false →
      Sockets_Connect t e h port = ⟨SocketsStatus.SOCKET_ERROR, t, false⟩) ∧
    (prvIsValidSocket t h = true → (prvGetHostByName e).1 ≠ 0 →
      e.semTake = true → e.connectOk = true →
      Sockets_Connect t e h port =
        ⟨SocketsStatus.ERROR_NONE,
         setSock t h { sockAt t h with
           ulFlags := (sockAt t h).ulFlags |||
             stsecuresocketsSOCKET_IS_CONNECTED_FLAG }, false⟩) ∧
    (prvIsValidSocket t h = true → (prvGetHostByName e).1 ≠ 0 →
      e.semTake = true → e.connectOk = false →
      Sockets_Connect t e h port = ⟨SocketsStatus.SOCKET_ERROR, t, false⟩) ∧
    (Sockets_Connect t e h port).semHeldAfter = false := by
  have hsem := prvGetHostByName_sem e
  refine ⟨?_, ?_, ?_, ?_, ?_, ?_⟩
  · intro hv
    simp [Sockets_Connect, hv]
  · intro hv hd
    have hv' : ¬ prvIsValidSocket t h = false := by simp [hv]
    unfold Sockets_Connect
    rw [if_neg hv', if_pos hd, hsem]
  · intro hv hd hs
    have hv' : ¬ prvIsValidSocket t h = false := by simp [hv]
    unfold Sockets_Connect
    rw [if_neg hv', if_neg hd, if_pos hs, hsem]
  · intro hv hd hs hcOk
    have hv' : ¬ prvIsValidSocket t h = false := by simp [hv]
    have hs' : ¬ e.semTake = false := by simp [hs]
    unfold Sockets_Connect
    rw [if_neg hv', if_neg hd, if_neg hs', if_pos hcOk]
  · intro hv hd hs hcOk
    have hv' : ¬ prvIsValidSocket t h = false := by simp [hv]
    have hs' : ¬ e.semTake = false := by simp [hs]
    have hcOk' : ¬ (e.connectOk = true) := by simp [hcOk]
    unfold Sockets_Connect
    rw [if_neg hv', if_neg hd, if_neg hs', if_neg hcOk']
  · unfold Sockets_Connect
    by_cases hv : prvIsValidSocket t h = false
    · rw [if_pos hv]
    · rw [if_neg hv]
      by_cases hd : (prvGetHostByName e).1 = 0
      · rw [if_pos hd]
        exact hsem
      · rw [if_neg hd]
        by_cases hs : e.semTake = false
        · rw [if_pos hs]
          exact hsem
        · rw [if_neg hs]
          by_cases hcOk : e.connectOk
          · rw [if_pos hcOk]
          · rw [if_neg hcOk]

/-- Witness for C6 at concrete inputs: each of the five branches on
handle 0 of a table with slot 0 open. -/
theorem c6_connect_sequence_witness :
    Sockets_Connect (Sockets_Init initialTable) connectEnvOk 3 80 =
      ⟨SocketsStatus.ENOMEM, Sockets_Init initialTable, false⟩ ∧
    Sockets_Connect scenOpen1.2 connectEnvNoDns 0 80 =
      ⟨SocketsStatus.SOCKET_ERROR, scenOpen1.2, false⟩ ∧
    Sockets_Connect scenOpen1.2 connectEnvNoSem 0 80 =
      ⟨SocketsStatus.SOCKET_ERROR, scenOpen1.2, false⟩ ∧
    Sockets_Connect scenOpen1.2 connectEnvOk 0 80 =
      ⟨SocketsStatus.ERROR_NONE,
       setSock scenOpen1.2 0 { sockAt scenOpen1.2 0 with
         ulFlags := (sockAt scenOpen1.2 0).ulFlags |||
           stsecuresocketsSOCKET_IS_CONNECTED_FLAG }, false⟩ ∧
    Sockets_Connect scenOpen1.2 connectEnvNoConn 0 80 =
      ⟨SocketsStatus.SOCKET_ERROR, scenOpen1.2, false⟩ :=
  ⟨(c6_connect_sequence (Sockets_Init initialTable) connectEnvOk 3 80).1
     (by decide),
   (c6_connect_sequence scenOpen1.2 connectEnvNoDns 0 80).2.1
     (by decide) (by decide),
   (c6_connect_sequence scenOpen1.2 connectEnvNoSem 0 80).2.2.1
     (by decide) (by decide) (by decide),
   (c6_connect_sequence scenOpen1.2 connectEnvOk 0 80).2.2.2.1
     (by decide) (by decide) (by decide) (by decide),
   (c6_connect_sequence scenOpen1.2 connectEnvNoConn 0 80).2.2.2.2.1
     (by decide) (by decide) (by decide) (by decide)⟩

/-- C5: when no data arrives, a receive timeout always surfaces as a
zero-byte result, never an error: if the very first semaphore
acquisition fails the call returns 0 at once with the table untouched;
if every poll up to some bound reports only hardware timeout or zero
bytes while the elapsed ticks at that bound have reached the slot's
receive timeout, the call returns 0 with the table untouched; and if
the semaphore acquisition fails at any iteration, the earlier polls
having been benign and inside the budget, the call returns 0
immediately with the table untouched. -/
theorem c5_recv_timeout_zero (t : SocketTable) (env : RecvEnv)
    (h len fuel : Nat) :
    (1 ≤ fuel → (env.step 0).semTake = false →
      Sockets_Recv t env h len fuel = some (Sum.inl 0, t)) ∧
    (∀ k, (∀ j, j ≤ k →
        (env.step j).semTake = true ∧
        ((env.step j).wifiStatus = WIFI_Status.TIMEOUT ∨
         ((env.step j).wifiStatus = WIFI_Status.OK ∧
          (env.step j).recvBytes (clampRecvLen len) % 65536 = 0))) →
      (sockAt t h).ulReceiveTimeout ≤ usub32 (env.step k).tickNow env.tick0 →
      k < fuel →
      Sockets_Recv t env h len fuel = some (Sum.inl 0, t)) ∧
    (∀ j, (∀ m, m < j →
        (env.step m).semTake = true ∧
        ((env.step m).wifiStatus = WIFI_Status.TIMEOUT ∨
         ((env.step m).wifiStatus = WIFI_Status.OK ∧
          (env.step m).recvBytes (clampRecvLen len) % 65536 = 0)) ∧
        usub32 (env.step m).tickNow env.tick0 <
          (sockAt t h).ulReceiveTimeout) →
      (env.step j).semTake = false →
      j < fuel →
      Sockets_Recv t env h len fuel = some (Sum.inl 0, t)) := by
  refine ⟨?_, ?_, ?_⟩
  · intro hfuel hTake
    obtain ⟨f, rfl⟩ : ∃ f, fuel = f + 1 := ⟨fuel - 1, by omega⟩
    simp only [Sockets_Recv]
    rw [recvLoop]
    simp only [hTake, Bool.false_eq_true, if_false]
    simp [faultRecovery]
  · intro k hsteps hTick hfuel
    obtain ⟨w, hw, hwne⟩ :=
      recvLoop_timeout_exit env.step (sockAt t h).ulReceiveTimeout env.tick0
        (clampRecvLen len) k 0 fuel WIFI_Status.OK
        (fun j hj1 hj2 => hsteps j (by omega))
        (by simpa using hTick) hfuel
    simp only [Sockets_Recv]
    rw [hw]
    simp [faultRecovery, hwne]
  · intro j hben hfail hfuel
    obtain ⟨w, hw, hwne⟩ :=
      recvLoop_semfail_exit env.step (sockAt t h).ulReceiveTimeout env.tick0
        (clampRecvLen len) j 0 fuel WIFI_Status.OK (by decide)
        (fun m hm => by simpa using hben m hm)
        (by simpa using hfail) hfuel
    simp only [Sockets_Recv]
    rw [hw]
    simp [faultRecovery, hwne]

/-- Witness for C5: a first-poll lock failure on the initialized table
returns zero; an all-timeout environment whose clock has already passed
the 10000 ms default timeout of a freshly opened slot returns zero; a
lock failure on the second iteration, after one benign in-budget
timeout poll, returns zero. -/
theorem c5_recv_timeout_zero_witness :
    Sockets_Recv (Sockets_Init initialTable) recvEnvNoSem 0 10 1 =
      some (Sum.inl 0, Sockets_Init initialTable) ∧
    Sockets_Recv scenOpen1.2 recvEnvTimeout 0 10 1 =
      some (Sum.inl 0, scenOpen1.2) ∧
    Sockets_Recv scenOpen1.2 recvEnvSemFailLater 0 10 2 =
      some (Sum.inl 0, scenOpen1.2) :=
  ⟨(c5_recv_timeout_zero (Sockets_Init initialTable) recvEnvNoSem 0 10 1).1
     (by decide) (by decide),
   (c5_recv_timeout_zero scenOpen1.2 recvEnvTimeout 0 10 1).2.1 0
     (fun j hj => by
       obtain rfl := Nat.le_zero.mp hj
       exact ⟨rfl, Or.inl rfl⟩)
     (by decide) (by decide),
   (c5_recv_timeout_zero scenOpen1.2 recvEnvSemFailLater 0 10 2).2.2 1
     (fun m hm => by
       obtain rfl := Nat.lt_one_iff.mp hm
       exact ⟨rfl, Or.inl rfl, by decide⟩)
     (by decide) (by decide)⟩

/-- C7: the receive length handed to the channel driver is clamped to
`ES_WIFI_PAYLOAD_SIZE`, so — given the driver contract that it delivers
at most the requested number of bytes — every byte count returned by
`Sockets_Recv` is at most `ES_WIFI_PAYLOAD_SIZE`, however large the
supplied buffer. -/
theorem c7_recv_clamped (t : SocketTable) (env : RecvEnv) (h len fuel : Nat) :
    (∀ l, clampRecvLen l ≤ ES_WIFI_PAYLOAD_SIZE) ∧
    ((∀ i l, (env.step i).recvBytes l ≤ l) →
      ∀ n u, Sockets_Recv t env h len fuel = some (Sum.inl n, u) →
        n ≤ ES_WIFI_PAYLOAD_SIZE) := by
  have hclamp : ∀ l, clampRecvLen l ≤ ES_WIFI_PAYLOAD_SIZE := by
    intro l
    unfold clampRecvLen
    by_cases hl : l > ES_WIFI_PAYLOAD_SIZE <;> simp [hl] <;> omega
  refine ⟨hclamp, ?_⟩
  intro hdrv n u hr
  simp only [Sockets_Recv] at hr
  cases hl : recvLoop env.step (sockAt t h).ulReceiveTimeout env.tick0
      (clampRecvLen len) 0 fuel WIFI_Status.OK with
  | none => rw [hl] at hr; simp at hr
  | some p =>
    rw [hl] at hr
    cases p with
    | mk ret w =>
      simp only [Option.some.injEq] at hr
      have hret : ret = Sum.inl n := by
        have hfst := congrArg Prod.fst hr
        unfold faultRecovery at hfst
        by_cases hw : w = WIFI_Status.ERROR
        · by_cases hres : env.resetOk
          · rw [if_pos hw, if_pos hres] at hfst
            simp at hfst
          · rw [if_pos hw, if_neg hres] at hfst
            exact hfst
        · rw [if_neg hw] at hfst
          exact hfst
      subst hret
      exact Nat.le_trans
        (recvLoop_bytes_le env.step (sockAt t h).ulReceiveTimeout env.tick0
          (clampRecvLen len) hdrv fuel 0 WIFI_Status.OK n w hl)
        (hclamp len)

/-- Witness for C7: a driver that always fills the whole request, asked
for 5000 bytes, returns exactly the 1200-byte clamp. -/
theorem c7_recv_clamped_witness : (1200 : Nat) ≤ ES_WIFI_PAYLOAD_SIZE :=
  (c7_recv_clamped scenOpen1.2 recvEnvData 0 5000 1).2
    (fun i l => Nat.le_refl l) 1200 scenOpen1.2 (by decide)

/-- C1: when the channel driver reports `WIFI_STATUS_ERROR` during a
receive or a send — i.e. the polling loop of `Sockets_Recv` ends with
that status, or `Sockets_Send`'s driver call under an acquired
semaphore reports it — then: if the module reset succeeds the call
returns the distinct `SOCKETS_PERIPHERAL_RESET` status and the table is
reinitialized, every slot free with READ_CLOSED and WRITE_CLOSED set;
if the reset fails the original `SOCKETS_SOCKET_ERROR` status is
returned and the table is untouched. -/
theorem c1_fault_recovery (t : SocketTable) (h len fuel : Nat)
    (renv : RecvEnv) (senv : SendEnv) :
    (∀ ret, recvLoop renv.step (sockAt t h).ulReceiveTimeout renv.tick0
        (clampRecvLen len) 0 fuel WIFI_Status.OK =
          some (ret, WIFI_Status.ERROR) →
      (renv.resetOk = true →
        Sockets_Recv t renv h len fuel =
          some (Sum.inr SocketsStatus.PERIPHERAL_RESET, Sockets_Init t) ∧
        ∀ s ∈ Sockets_Init t, s.ucInUse = 0 ∧
          s.ulFlags &&& stsecuresocketsSOCKET_READ_CLOSED_FLAG ≠ 0 ∧
          s.ulFlags &&& stsecuresocketsSOCKET_WRITE_CLOSED_FLAG ≠ 0) ∧
      (renv.resetOk = false →
        Sockets_Recv t renv h len fuel =
          some (Sum.inr SocketsStatus.SOCKET_ERROR, t))) ∧
    (senv.semTake = true → senv.wifiStatus = WIFI_Status.ERROR →
      (senv.resetOk = true →
        Sockets_Send t senv h len =
          (Sum.inr SocketsStatus.PERIPHERAL_RESET, Sockets_Init t) ∧
        ∀ s ∈ Sockets_Init t, s.ucInUse = 0 ∧
          s.ulFlags &&& stsecuresocketsSOCKET_READ_CLOSED_FLAG ≠ 0 ∧
          s.ulFlags &&& stsecuresocketsSOCKET_WRITE_CLOSED_FLAG ≠ 0) ∧
      (senv.resetOk = false →
        Sockets_Send t senv h len = (Sum.inr SocketsStatus.SOCKET_ERROR, t))) := by
  constructor
  · intro ret hloop
    have hret : ret = Sum.inr SocketsStatus.SOCKET_ERROR :=
      recvLoop_error_ret renv.step (sockAt t h).ulReceiveTimeout renv.tick0
        (clampRecvLen len) fuel 0 WIFI_Status.OK ret (by decide) hloop
    subst hret
    constructor
    · intro hres
      refine ⟨?_, init_slots t⟩
      simp only [Sockets_Recv]
      rw [hloop]
      simp [faultRecovery, hres]
    · intro hres
      simp only [Sockets_Recv]
      rw [hloop]
      simp [faultRecovery, hres]
  · intro hTake hw
    constructor
    · intro hres
      refine ⟨?_, init_slots t⟩
      unfold Sockets_Send
      simp only [hTake, if_true, hw]
      simp [faultRecovery, hres]
    · intro hres
      unfold Sockets_Send
      simp only [hTake, if_true, hw]
      simp [faultRecovery, hres]

/-- Witness for C1: on the mixed table, a receive whose first poll
reports a hardware error with a successful reset yields
PERIPHERAL_RESET and the reinitialized table; with a failing reset,
receive and send yield SOCKET_ERROR and the untouched table; a send
error with successful reset yields PERIPHERAL_RESET. -/
theorem c1_fault_recovery_witness :
    Sockets_Recv mixedTable recvEnvErr 0 10 1 =
      some (Sum.inr SocketsStatus.PERIPHERAL_RESET, Sockets_Init mixedTable) ∧
    Sockets_Recv mixedTable recvEnvErrNoReset 0 10 1 =
      some (Sum.inr SocketsStatus.SOCKET_ERROR, mixedTable) ∧
    Sockets_Send mixedTable sendEnvErr 0 10 =
      (Sum.inr SocketsStatus.PERIPHERAL_RESET, Sockets_Init mixedTable) ∧
    Sockets_Send mixedTable sendEnvErrNoReset 0 10 =
      (Sum.inr SocketsStatus.SOCKET_ERROR, mixedTable) :=
  ⟨((c1_fault_recovery mixedTable 0 10 1 recvEnvErr sendEnvErr).1
      (Sum.inr SocketsStatus.SOCKET_ERROR) (by decide)).1 rfl |>.1,
   ((c1_fault_recovery mixedTable 0 10 1 recvEnvErrNoReset sendEnvErr).1
      (Sum.inr SocketsStatus.SOCKET_ERROR) (by decide)).2 rfl,
   ((c1_fault_recovery mixedTable 0 10 1 recvEnvErr sendEnvErr).2
      rfl rfl).1 rfl |>.1,
   ((c1_fault_recovery mixedTable 0 10 1 recvEnvErr sendEnvErrNoReset).2
      rfl rfl).2 rfl⟩

end STSockets
